import Mathlib

/-!
Verification of the JWT authentication core of `aungmyozaw92/go-api-setup`:
the token codec (`pkg/utils/jwt.go`, built on `golang-jwt/jwt/v5`), the
authentication and CORS middleware (`internal/middleware/auth.go`) and the
route pipeline (`internal/routes/routes.go`).

Modelling conventions:
* Wall-clock time is an integer count of Unix seconds, passed explicitly
  as `now`.  `time.Now()` is read as a single instant per call to
  `GenerateJWT` (the three consecutive reads in the source happen within
  the same second at this granularity).  `24 * time.Hour` is `24 * 60 * 60`
  seconds, matching the second-precision serialization of
  `jwt.NewNumericDate`.
* HMAC-SHA2 is modelled symbolically (a perfect MAC): a signature is a
  free record of the declared algorithm, the signed claims and the key,
  so two signatures are equal exactly when algorithm, content and key all
  coincide.  This is the standard Dolev-Yao idealization of a MAC.
* The base64url/JSON compact serialization of `golang-jwt` is modelled by
  an executable pair `encodeCompact` / `parseCompact` producing three
  dot-free, period-separated segments, the shape `jwt.Parse` requires.
* Go `uint` is `Nat`; the nil-able `*jwt.NumericDate` pointers of
  `jwt.RegisteredClaims` are `Option Int`.
-/

namespace GoApi

/-- `JWTClaims` from `pkg/utils/jwt.go`: `UserID uint`, `Email string`,
plus the embedded `jwt.RegisteredClaims` timestamp fields used by this
code base (`ExpiresAt`, `IssuedAt`, `NotBefore`, each a nil-able
`*jwt.NumericDate`, here `Option Int` Unix seconds). -/
structure JWTClaims where
  userID : Nat
  email : String
  expiresAt : Option Int
  issuedAt : Option Int
  notBefore : Option Int
deriving DecidableEq

/-- Symbolic HMAC signature: `alg(header(alg) ++ "." ++ payload(claims), key)`.
The signed content of a JWS is determined by the algorithm of the header
and the serialized claims, so a perfect MAC is a free record of the
three. -/
structure HMACSig where
  alg : String
  claims : JWTClaims
  key : String
deriving DecidableEq

/-- A parsed JWS compact token: the header's `alg` field, the payload
claims, and the signature segment. -/
structure Token where
  alg : String
  claims : JWTClaims
  sig : HMACSig
deriving DecidableEq

/-- Error taxonomy of `ValidateJWT` (the middleware only tests `err != nil`,
so only the partition into `Except.error` vs `Except.ok` is observable). -/
inductive JWTError where
  /-- `jwt.ErrTokenMalformed`: empty token or not three dot-separated
  segments, or an undecodable segment. -/
  | malformedToken
  /-- the keyfunc's `errors.New("invalid signing method")` (header method is
  not `*jwt.SigningMethodHMAC`), or an unregistered `alg`. -/
  | invalidSigningMethod
  /-- `jwt.ErrTokenSignatureInvalid`. -/
  | signatureInvalid
  /-- `jwt.ErrTokenExpired`. -/
  | tokenExpired
  /-- `jwt.ErrTokenNotValidYet`. -/
  | tokenNotValidYet
deriving DecidableEq

instance {ε α : Type} [DecidableEq ε] [DecidableEq α] : DecidableEq (Except ε α) := fun a b =>
  match a, b with
  | .error e, .error f =>
    if h : e = f then isTrue (by rw [h])
    else isFalse (by simp only [Except.error.injEq]; exact h)
  | .error _, .ok _ => isFalse (by simp)
  | .ok _, .error _ => isFalse (by simp)
  | .ok x, .ok y =>
    if h : x = y then isTrue (by rw [h])
    else isFalse (by simp only [Except.ok.injEq]; exact h)

/-- `GenerateJWT(userID, email, secretKey)` from `pkg/utils/jwt.go`, at clock
instant `now`: builds the claims with `ExpiresAt = now + 24h`,
`IssuedAt = NotBefore = now`, and signs them with `jwt.SigningMethodHS256`
under `secretKey`.  Returns the signed token (in parsed form; the compact
string is `generateJWTString`). -/
def GenerateJWT (userID : Nat) (email : String) (secretKey : String) (now : Int) : Token :=
  let claims : JWTClaims :=
    { userID := userID
      email := email
      expiresAt := some (now + 24 * 60 * 60)
      issuedAt := some now
      notBefore := some now }
  { alg := "HS256", claims := claims, sig := { alg := "HS256", claims := claims, key := secretKey } }

/-- The keyfunc check in `ValidateJWT`: `token.Method.(*jwt.SigningMethodHMAC)`
succeeds exactly for the three registered HMAC methods HS256, HS384, HS512.
(An `alg` not registered at all already fails inside `jwt.Parse` when looking
up the signing method; both paths are rejections.) -/
def isHMACMethod (alg : String) : Bool :=
  alg == "HS256" || alg == "HS384" || alg == "HS512"

/-- `golang-jwt/v5` default validator, `verifyExpiresAt` with zero leeway:
if the `exp` claim is absent it is skipped (not required by default),
otherwise the check is `now.Before(exp)`, i.e. `now < exp`. -/
def verifyExpiresAt (c : JWTClaims) (now : Int) : Bool :=
  match c.expiresAt with
  | none => true
  | some e => decide (now < e)

/-- `golang-jwt/v5` default validator, `verifyNotBefore` with zero leeway:
skipped when absent, otherwise `!now.Before(nbf)`, i.e. `nbf ≤ now`.
(`iat` is not verified by the default validator.) -/
def verifyNotBefore (c : JWTClaims) (now : Int) : Bool :=
  match c.notBefore with
  | none => true
  | some n => decide (n ≤ now)

/-- Claims validation of `golang-jwt/v5` (`validator.Validate`) as run by
`jwt.ParseWithClaims` after signature verification. -/
def validateClaims (c : JWTClaims) (now : Int) : Except JWTError Unit :=
  if verifyExpiresAt c now = false then .error .tokenExpired
  else if verifyNotBefore c now = false then .error .tokenNotValidYet
  else .ok ()

/-- `jwt.ParseWithClaims` on an already-decoded token, with the keyfunc of
`ValidateJWT` in `pkg/utils/jwt.go`: (1) the keyfunc rejects any non-HMAC
signing method; (2) the signature is verified with the method declared in
the header under `[]byte(secretKey)`; (3) the registered claims are
validated at `now`.  On success `ValidateJWT` returns the claims. -/
def ParseWithClaims (t : Token) (secretKey : String) (now : Int) :
    Except JWTError JWTClaims :=
  if isHMACMethod t.alg = false then .error .invalidSigningMethod
  else if t.sig ≠ ({ alg := t.alg, claims := t.claims, key := secretKey } : HMACSig) then
    .error .signatureInvalid
  else
    match validateClaims t.claims now with
    | .error e => .error e
    | .ok _ => .ok t.claims

/-! ## Compact serialization

`golang-jwt` serializes a token as three period-separated base64url
segments (`strings.Split(tokenString, ".")` must yield exactly 3 parts).
Base64url itself is abstracted: each segment is encoded over the dot-free
alphabet of decimal digits, `-`, `~`, `!`, `s`, `n`, keeping the
three-segment structure and executability in both directions. -/

/-- `strings.Split(s, sep)` for a one-character separator, as in
`jwt.Parse`: splitting the empty string yields `[""]`. -/
def splitCharAux (sep : Char) : List Char → List Char → List (List Char)
  | [], acc => [acc.reverse]
  | c :: cs, acc =>
    if c == sep then acc.reverse :: splitCharAux sep cs []
    else splitCharAux sep cs (c :: acc)

/-- Split a string on every occurrence of `sep`. -/
def splitChar (sep : Char) (s : String) : List String :=
  (splitCharAux sep s.data []).map String.mk

/-- Decimal digit value of a character, `none` if not a digit. -/
def digitVal (c : Char) : Option Nat :=
  if c.toNat ≥ 48 ∧ c.toNat ≤ 57 then some (c.toNat - 48) else none

/-- Parse a non-empty digit list as a decimal number. -/
def decNatAux : List Char → Nat → Option Nat
  | [], acc => some acc
  | c :: cs, acc =>
    match digitVal c with
    | none => none
    | some d => decNatAux cs (acc * 10 + d)

/-- Parse a decimal `Nat`; the empty string is rejected. -/
def decodeNatStr (s : String) : Option Nat :=
  match s.data with
  | [] => none
  | l => decNatAux l 0

/-- Parse a decimal `Int` with an optional leading minus sign. -/
def decodeIntStr (s : String) : Option Int :=
  match s.data with
  | '-' :: rest =>
    match decNatAux rest 0 with
    | none => none
    | some n => if rest = [] then none else some (-(n : Int))
  | l =>
    match l with
    | [] => none
    | _ => (decNatAux l 0).map fun n => (n : Int)

/-- Segment encoding of an arbitrary string: the decimal code points of
its characters joined by `-` (the abstraction of base64url: injective in
practice and free of `.`, `~`, `!`). -/
def encodeStrField (s : String) : String :=
  String.intercalate "-" (s.data.map fun c => toString c.toNat)

/-- Inverse of `encodeStrField`. -/
def decodeStrField (s : String) : Option String :=
  if s = "" then some ""
  else
    ((splitChar '-' s).mapM decodeNatStr).map fun ns =>
      String.mk (ns.map Char.ofNat)

/-- Encoding of a nil-able `*jwt.NumericDate`: `n` for nil, `s<decimal>`
for a present timestamp. -/
def encodeOptInt : Option Int → String
  | none => "n"
  | some i => "s" ++ toString i

/-- Inverse of `encodeOptInt`. -/
def decodeOptIntStr (s : String) : Option (Option Int) :=
  if s = "n" then some none
  else
    match s.data with
    | 's' :: rest => (decodeIntStr (String.mk rest)).map some
    | _ => none

/-- Payload segment: the five claim fields, `~`-separated. -/
def encodePayload (c : JWTClaims) : String :=
  toString c.userID ++ "~" ++ encodeStrField c.email ++ "~" ++
    encodeOptInt c.expiresAt ++ "~" ++ encodeOptInt c.issuedAt ++ "~" ++
    encodeOptInt c.notBefore

/-- Inverse of `encodePayload`. -/
def decodePayload (s : String) : Option JWTClaims :=
  match splitChar '~' s with
  | [u, e, x, i, n] =>
    match decodeNatStr u, decodeStrField e, decodeOptIntStr x,
        decodeOptIntStr i, decodeOptIntStr n with
    | some uv, some ev, some xv, some iv, some nv =>
      some { userID := uv, email := ev, expiresAt := xv, issuedAt := iv, notBefore := nv }
    | _, _, _, _, _ => none
  | _ => none

/-- Signature segment: the symbolic MAC record, `!`-separated. -/
def encodeSig (m : HMACSig) : String :=
  encodeStrField m.alg ++ "!" ++ encodePayload m.claims ++ "!" ++ encodeStrField m.key

/-- Inverse of `encodeSig`. -/
def decodeSig (s : String) : Option HMACSig :=
  match splitChar '!' s with
  | [a, c, k] =>
    match decodeStrField a, decodePayload c, decodeStrField k with
    | some av, some cv, some kv => some { alg := av, claims := cv, key := kv }
    | _, _, _ => none
  | _ => none

/-- JWS compact serialization: `header . payload . signature`. -/
def encodeCompact (t : Token) : String :=
  encodeStrField t.alg ++ "." ++ encodePayload t.claims ++ "." ++ encodeSig t.sig

/-- `jwt.Parse`'s decoding step: exactly three period-separated segments,
each of which must decode; otherwise the token is malformed. -/
def parseCompact (s : String) : Option Token :=
  match splitChar '.' s with
  | [h, p, g] =>
    match decodeStrField h, decodePayload p, decodeSig g with
    | some hv, some pv, some gv => some { alg := hv, claims := pv, sig := gv }
    | _, _, _ => none
  | _ => none

/-- `ValidateJWT(tokenString, secretKey)` from `pkg/utils/jwt.go` at clock
instant `now`: decode the compact string, then run `jwt.ParseWithClaims`
with the HMAC-only keyfunc; any failure surfaces as an error and no
claims. -/
def ValidateJWT (tokenString : String) (secretKey : String) (now : Int) :
    Except JWTError JWTClaims :=
  match parseCompact tokenString with
  | none => .error .malformedToken
  | some t => ParseWithClaims t secretKey now

/-- `GenerateJWT` as the source has it, returning the compact string
(`token.SignedString([]byte(secretKey))`). -/
def generateJWTString (userID : Nat) (email : String) (secretKey : String) (now : Int) :
    String :=
  encodeCompact (GenerateJWT userID email secretKey now)

/-! ## HTTP model and middleware (`internal/middleware/auth.go`) -/

/-- A value stored in a request context by `context.WithValue`: the
middleware stores a Go `uint` under `"user_id"` and a `string` under
`"user_email"`. -/
inductive CtxVal where
  | natV : Nat → CtxVal
  | strV : String → CtxVal
deriving DecidableEq

/-- An inbound `*http.Request`: method, URL, headers, body, and the
request context (`context.WithValue` chains modelled as a list with the
most recently added pair first, as child contexts shadow parents). -/
structure Request where
  method : String
  url : String
  headers : List (String × String)
  body : String
  ctx : List (String × CtxVal)
deriving DecidableEq

/-- `r.Context().Value(key)`: innermost (most recently added) binding wins. -/
def ctxValue (ctx : List (String × CtxVal)) (key : String) : Option CtxVal :=
  match ctx.find? fun p => p.fst == key with
  | some p => some p.snd
  | none => none

/-- `r.Header.Get(key)`: first value for the key, or `""` when the header
is absent. -/
def headerGet (hs : List (String × String)) (key : String) : String :=
  match hs.find? fun p => p.fst == key with
  | some p => p.snd
  | none => ""

/-- A JSON value as produced by `encoding/json` on the response bodies of
this code base. -/
inductive JsonVal where
  | str : String → JsonVal
  | obj : List (String × JsonVal) → JsonVal

/-- What a handler writes to the `http.ResponseWriter`: a status code,
response headers, and an optional JSON body. -/
structure Response where
  status : Nat
  headers : List (String × String)
  body : Option JsonVal

/-- `writeErrorResponse(w, message, statusCode)`: sets
`Content-Type: application/json`, writes the status code, and encodes
`map[string]string{"error": message}`. -/
def writeErrorResponse (message : String) (statusCode : Nat) : Response :=
  { status := statusCode
    headers := [("Content-Type", "application/json")]
    body := some (.obj [("error", .str message)]) }

/-- `strings.HasPrefix`. -/
def hasPrefixStr (p s : String) : Bool :=
  p.data.isPrefixOf s.data

/-- `strings.TrimPrefix`: removes `p` when it is a prefix of `s`,
otherwise returns `s` unchanged. -/
def trimPrefixStr (p s : String) : String :=
  if hasPrefixStr p s then String.mk (s.data.drop p.data.length) else s

/-- Outcome of one `AuthMiddleware` pass over a request: either the gate
wrote a rejection response and returned (so `next` is never invoked), or
it calls `next.ServeHTTP(w, r.WithContext(ctx))` with the updated
request. -/
inductive AuthOutcome where
  | reject : Response → AuthOutcome
  | proceed : Request → AuthOutcome

/-- The request handed to `next` on success: `r.WithContext(ctx)` where
`ctx = WithValue(WithValue(r.Context(), "user_id", claims.UserID),
"user_email", claims.Email)`.  Everything else is unchanged. -/
def withAuthContext (r : Request) (claims : JWTClaims) : Request :=
  { r with ctx := ("user_email", .strV claims.email) :: ("user_id", .natV claims.userID) :: r.ctx }

/-- The decision taken by the handler returned by
`AuthMiddleware(jwtSecret)` on one request, at clock instant `now`,
following `internal/middleware/auth.go` line by line. -/
def AuthMiddleware (jwtSecret : String) (now : Int) (r : Request) : AuthOutcome :=
  let authHeader := headerGet r.headers "Authorization"
  if authHeader = "" then
    .reject (writeErrorResponse "Authorization header required" 401)
  else if hasPrefixStr "Bearer " authHeader = false then
    .reject (writeErrorResponse "Invalid authorization header format" 401)
  else
    let token := trimPrefixStr "Bearer " authHeader
    if token = "" then
      .reject (writeErrorResponse "Token required" 401)
    else
      match ValidateJWT token jwtSecret now with
      | .error _ => .reject (writeErrorResponse "Invalid token" 401)
      | .ok claims => .proceed (withAuthContext r claims)

/-- The wrapped handler `AuthMiddleware(jwtSecret)(next)` as a function
from requests to the final response: on rejection the gate's response is
the whole output; on success the output is whatever `next` writes. -/
def authHandler (jwtSecret : String) (now : Int) (next : Request → Response)
    (r : Request) : Response :=
  match AuthMiddleware jwtSecret now r with
  | .reject resp => resp
  | .proceed r2 => next r2

/-- The list of requests the gate hands to the downstream handler while
serving `r` (the two rejection paths `return` before `next.ServeHTTP`;
the success path calls it exactly once). -/
def authHandlerCalls (jwtSecret : String) (now : Int) (r : Request) : List Request :=
  match AuthMiddleware jwtSecret now r with
  | .reject _ => []
  | .proceed r2 => [r2]

/-- The three headers `CORSMiddleware` sets on every response, in order. -/
def corsHeaders : List (String × String) :=
  [("Access-Control-Allow-Origin", "*"),
   ("Access-Control-Allow-Methods", "GET, POST, PUT, DELETE, OPTIONS"),
   ("Access-Control-Allow-Headers", "Content-Type, Authorization")]

/-- `CORSMiddleware(next)` from `internal/middleware/auth.go`: set the
three `Access-Control-*` headers, answer `OPTIONS` directly with
`http.StatusOK` and return (so `next` never runs), and otherwise run
`next` on the same request; the headers already set on the shared
`http.ResponseWriter` remain on the final response. -/
def CORSMiddleware (next : Request → Response) (r : Request) : Response :=
  if r.method = "OPTIONS" then
    { status := 200, headers := corsHeaders, body := none }
  else
    let resp := next r
    { resp with headers := corsHeaders ++ resp.headers }

/-! ## Route pipeline (`internal/routes/routes.go`) -/

/-- The route groups `SetupRoutes` registers: public `/api/auth/*` routes,
protected `/api/*` routes, and health/root routes. -/
inductive RouteKind where
  | publicR
  | protectedR
  | healthR
deriving DecidableEq

/-- The middleware pipeline `SetupRoutes` builds for each route group:
`router.Use(middleware.CORSMiddleware)` applies the CORS gate to every
route, and the protected subrouter additionally applies
`middleware.AuthMiddleware(jwtSecret)` inside it, so CORS always runs
first. -/
def SetupRoutes (jwtSecret : String) (now : Int) (k : RouteKind)
    (base : Request → Response) : Request → Response :=
  match k with
  | .publicR => CORSMiddleware base
  | .protectedR => CORSMiddleware (authHandler jwtSecret now base)
  | .healthR => CORSMiddleware base

/-! ## Theorems: token codec -/

/-- C1: for every `subject_id` (including 0), every `subject_email`
(including the empty string) and every secret, validating the token
produced by `GenerateJWT` with the same secret at any instant inside the
token's validity window succeeds and returns claims whose `UserID` and
`Email` are exactly the issuance inputs; `subject_id = 0` round-trips
like any other identifier. -/
theorem C1_issue_validate_roundtrip (userID : Nat) (email secretKey : String)
    (now nowV : Int) (hnb : now ≤ nowV) (hexp : nowV < now + 24 * 60 * 60) :
    ParseWithClaims (GenerateJWT userID email secretKey now) secretKey nowV =
      .ok { userID := userID, email := email, expiresAt := some (now + 24 * 60 * 60),
            issuedAt := some now, notBefore := some now } := by
  simp only [ParseWithClaims, GenerateJWT, isHMACMethod, validateClaims,
    verifyExpiresAt, verifyNotBefore]
  simp [hnb, hexp]
  rw [if_neg (by omega)]

/-- Witness for C1 at `subject_id = 0`, empty email and empty secret,
issued and validated at instant 0. -/
theorem C1_witness :
    ParseWithClaims (GenerateJWT 0 "" "" 0) "" 0 =
      .ok { userID := 0, email := "", expiresAt := some 86400,
            issuedAt := some 0, notBefore := some 0 } :=
  C1_issue_validate_roundtrip 0 "" "" 0 0 (by decide) (by decide)

/-- C2: a token issued under secret `s1` never validates under a
different secret `s2`, at any instant: the HMAC signature check fails. -/
theorem C2_secret_sensitivity (userID : Nat) (email s1 s2 : String)
    (now nowV : Int) (hne : s2 ≠ s1) :
    ParseWithClaims (GenerateJWT userID email s1 now) s2 nowV =
      .error .signatureInvalid := by
  simp only [ParseWithClaims, GenerateJWT, isHMACMethod]
  simp [HMACSig.mk.injEq]
  intro h
  exact absurd h.symm hne

/-- Witness for C2 with an empty issuance secret and a non-empty
validation secret. -/
theorem C2_witness :
    ParseWithClaims (GenerateJWT 5 "u@e" "" 10) "x" 10 =
      .error .signatureInvalid :=
  C2_secret_sensitivity 5 "u@e" "" "x" 10 10 (by decide)

/-- C3: a correctly signed HMAC token with an expiry and a not-before
claim validates exactly when the validation instant lies in the half-open
window `[not_before, expires_at)`; in particular, for a freshly issued
token (`not_before = issued_at`, `expires_at = issued_at + 24h`) any
instant `issued_at + 24h - ε` inside the window is accepted and any
instant `issued_at + 24h + ε` (ε > 0) is rejected. -/
theorem C3_expiry_boundary (t : Token) (secretKey : String) (now e n : Int)
    (halg : isHMACMethod t.alg = true)
    (hsig : t.sig = { alg := t.alg, claims := t.claims, key := secretKey })
    (hexp : t.claims.expiresAt = some e)
    (hnbf : t.claims.notBefore = some n) :
    (ParseWithClaims t secretKey now).isOk = true ↔ (n ≤ now ∧ now < e) := by
  simp only [ParseWithClaims, validateClaims, verifyExpiresAt, verifyNotBefore,
    halg, hsig, hexp, hnbf]
  by_cases h1 : now < e <;> by_cases h2 : n ≤ now <;>
    simp [h1, h2, Except.isOk, Except.toBool]

/-- Witness for C3: the token issued at instant 0 under secret `"k"`,
checked one second before its expiry instant 86400. -/
theorem C3_witness :
    (ParseWithClaims (GenerateJWT 1 "a" "k" 0) "k" 86399).isOk = true ↔
      ((0 : Int) ≤ 86399 ∧ (86399 : Int) < 86400) :=
  C3_expiry_boundary (GenerateJWT 1 "a" "k" 0) "k" 86399 86400 0 rfl rfl rfl rfl

/-- C7 counterexample: a token whose header declares `HS384` (an HMAC
method other than the `HS256` used at issuance), correctly signed under
the configured secret `"k"`, is accepted by `ValidateJWT` — the keyfunc
admits every `*jwt.SigningMethodHMAC`, not only HS256. -/
theorem C7_counterexample :
    ParseWithClaims
      { alg := "HS384"
        claims := { userID := 1, email := "a", expiresAt := some 86400,
                    issuedAt := some 0, notBefore := some 0 }
        sig := { alg := "HS384"
                 claims := { userID := 1, email := "a", expiresAt := some 86400,
                             issuedAt := some 0, notBefore := some 0 }
                 key := "k" } } "k" 0 =
      .ok { userID := 1, email := "a", expiresAt := some 86400,
            issuedAt := some 0, notBefore := some 0 } := by
  decide

/-- C7 amended: `ValidateJWT` rejects every token whose header declares a
signing algorithm outside the symmetric HMAC family accepted by the
keyfunc (`HS256`, `HS384`, `HS512`), even if its signature field would
match; HMAC-family algorithms other than HS256 are accepted when the
signature verifies. -/
theorem C7_amended_non_hmac_rejected (t : Token) (secretKey : String) (now : Int)
    (h : isHMACMethod t.alg = false) :
    ParseWithClaims t secretKey now = .error .invalidSigningMethod := by
  simp [ParseWithClaims, h]

/-- Witness for the amended C7: an alg-substitution token declaring
`none` is rejected no matter how its signature reads. -/
theorem C7_amended_witness :
    ParseWithClaims
      { alg := "none"
        claims := { userID := 1, email := "a", expiresAt := some 86400,
                    issuedAt := some 0, notBefore := some 0 }
        sig := { alg := "none"
                 claims := { userID := 1, email := "a", expiresAt := some 86400,
                             issuedAt := some 0, notBefore := some 0 }
                 key := "k" } } "k" 0 =
      .error .invalidSigningMethod :=
  C7_amended_non_hmac_rejected _ "k" 0 (by decide)

/-- C8: every token produced by `GenerateJWT` carries
`not_before = issued_at` and `expires_at = issued_at + 24 hours`
exactly. -/
theorem C8_fixed_lifetime (userID : Nat) (email secretKey : String) (now : Int) :
    (GenerateJWT userID email secretKey now).claims.notBefore =
        (GenerateJWT userID email secretKey now).claims.issuedAt ∧
      (GenerateJWT userID email secretKey now).claims.issuedAt = some now ∧
      (GenerateJWT userID email secretKey now).claims.expiresAt =
        some (now + 24 * 60 * 60) :=
  ⟨rfl, rfl, rfl⟩

/-! ## Helper lemmas for the middleware -/

theorem string_mk_data (s : String) : String.mk s.data = s := by
  cases s
  rfl

theorem bearer_append_ne_empty (t : String) : ("Bearer " ++ t) ≠ "" := by
  intro h
  have h2 : ("Bearer " ++ t).data = "".data := congrArg String.data h
  rw [String.data_append] at h2
  have h3 : "Bearer ".data = ['B', 'e', 'a', 'r', 'e', 'r', ' '] := rfl
  rw [h3] at h2
  simp at h2

theorem hasPrefixStr_bearer_append (t : String) :
    hasPrefixStr "Bearer " ("Bearer " ++ t) = true := by
  unfold hasPrefixStr
  rw [String.data_append, List.isPrefixOf_iff_prefix]
  exact List.prefix_append _ _

theorem trimPrefixStr_bearer_append (t : String) :
    trimPrefixStr "Bearer " ("Bearer " ++ t) = t := by
  unfold trimPrefixStr
  rw [if_pos (by rw [hasPrefixStr_bearer_append])]
  rw [String.data_append, List.drop_left, string_mk_data]

/-- Control flow of `AuthMiddleware` on a request whose `Authorization`
header is `Bearer ` followed by a non-empty token: the gate reaches the
`utils.ValidateJWT` call on exactly that token. -/
theorem authMiddleware_bearer (jwtSecret : String) (now : Int) (r : Request)
    (ts : String) (hh : headerGet r.headers "Authorization" = "Bearer " ++ ts)
    (hts : ts ≠ "") :
    AuthMiddleware jwtSecret now r =
      match ValidateJWT ts jwtSecret now with
      | .error _ => .reject (writeErrorResponse "Invalid token" 401)
      | .ok claims => .proceed (withAuthContext r claims) := by
  unfold AuthMiddleware
  rw [hh]
  rw [if_neg (bearer_append_ne_empty ts)]
  rw [hasPrefixStr_bearer_append]
  simp only [Bool.true_eq_false, if_false]
  rw [trimPrefixStr_bearer_append]
  rw [if_neg hts]

/-- The empty token string is malformed: it does not split into three
period-separated segments. -/
theorem validateJWT_empty (jwtSecret : String) (now : Int) :
    ValidateJWT "" jwtSecret now = .error .malformedToken := rfl

/-! ## Theorems: authentication gate -/

/-- C4: a request with no `Authorization` header (`Header.Get` yields
`""`), or a header without the exact case-sensitive `Bearer ` prefix, or
an empty token after stripping that prefix, is answered with status 401
and the JSON body `\x7b"error": <message>\x7d`, and the downstream
handler never runs (the gate's response is the whole output, whatever
`next` is). -/
theorem C4_gate_rejects_malformed_credential (jwtSecret : String) (now : Int)
    (r : Request)
    (h : headerGet r.headers "Authorization" = "" ∨
      hasPrefixStr "Bearer " (headerGet r.headers "Authorization") = false ∨
      trimPrefixStr "Bearer " (headerGet r.headers "Authorization") = "") :
    ∃ msg, AuthMiddleware jwtSecret now r = .reject (writeErrorResponse msg 401) ∧
      (writeErrorResponse msg 401).status = 401 ∧
      (writeErrorResponse msg 401).body =
        some (JsonVal.obj [("error", JsonVal.str msg)]) ∧
      ∀ next, authHandler jwtSecret now next r = writeErrorResponse msg 401 := by
  by_cases hA : headerGet r.headers "Authorization" = ""
  · refine ⟨"Authorization header required", ?_, rfl, rfl, ?_⟩
    · unfold AuthMiddleware
      rw [hA]
      simp
    · intro next
      unfold authHandler AuthMiddleware
      rw [hA]
      simp
  · by_cases hB : hasPrefixStr "Bearer " (headerGet r.headers "Authorization") = false
    · refine ⟨"Invalid authorization header format", ?_, rfl, rfl, ?_⟩
      · unfold AuthMiddleware
        rw [if_neg hA, hB]
        simp
      · intro next
        unfold authHandler AuthMiddleware
        rw [if_neg hA, hB]
        simp
    · have hC : trimPrefixStr "Bearer " (headerGet r.headers "Authorization") = "" := by
        rcases h with h | h | h
        · exact absurd h hA
        · exact absurd h hB
        · exact h
      refine ⟨"Token required", ?_, rfl, rfl, ?_⟩
      · unfold AuthMiddleware
        rw [if_neg hA, if_neg hB]
        simp [hC]
      · intro next
        unfold authHandler AuthMiddleware
        rw [if_neg hA, if_neg hB]
        simp [hC]

/-- Witness for C4: a request with no headers at all is rejected with a
401 JSON error body and the downstream handler never runs. -/
theorem C4_witness :
    ∃ msg, AuthMiddleware "secret" 0
        { method := "GET", url := "/api/users", headers := [], body := "", ctx := [] } =
        .reject (writeErrorResponse msg 401) ∧
      (writeErrorResponse msg 401).status = 401 ∧
      (writeErrorResponse msg 401).body =
        some (JsonVal.obj [("error", JsonVal.str msg)]) ∧
      ∀ next, authHandler "secret" 0 next
          { method := "GET", url := "/api/users", headers := [], body := "", ctx := [] } =
          writeErrorResponse msg 401 :=
  C4_gate_rejects_malformed_credential "secret" 0
    { method := "GET", url := "/api/users", headers := [], body := "", ctx := [] }
    (Or.inl rfl)

/-- A trivial downstream handler, used to instantiate `next` in concrete
scenarios. -/
def handlerOk : Request → Response :=
  fun _ => { status := 200, headers := [], body := none }

/-- A request whose bearer token is the unparseable string `garbage`. -/
def reqGarbageToken : Request :=
  { method := "GET", url := "/api/users",
    headers := [("Authorization", "Bearer garbage")], body := "", ctx := [] }

/-- A request whose `Authorization` header is exactly `Bearer `, so the
extracted token is the empty string. -/
def reqEmptyToken : Request :=
  { method := "GET", url := "/api/users",
    headers := [("Authorization", "Bearer ")], body := "", ctx := [] }

/-- A request carrying a token signed under secret `s1`, presented to a
gate configured with secret `k`. -/
def reqWrongSecret : Request :=
  { method := "GET", url := "/api/users",
    headers := [("Authorization", "Bearer " ++ generateJWTString 1 "a" "s1" 0)],
    body := "", ctx := [] }

/-- C5 counterexample: two requests whose extracted tokens both fail
`ValidateJWT` under the configured secret — `garbage` (malformed) and
the empty token (malformed) — yet the gate's responses differ: the empty
token is caught by the gate's own emptiness check and answered with
`Token required`, while the other failure is answered with
`Invalid token`.  Both are 401, but the error bodies are distinct, so the
claim as stated is false. -/
theorem C5_counterexample :
    (ValidateJWT (trimPrefixStr "Bearer " (headerGet reqGarbageToken.headers "Authorization"))
        "k" 0).isOk = false ∧
    (ValidateJWT (trimPrefixStr "Bearer " (headerGet reqEmptyToken.headers "Authorization"))
        "k" 0).isOk = false ∧
    (authHandler "k" 0 handlerOk reqGarbageToken).status = 401 ∧
    (authHandler "k" 0 handlerOk reqEmptyToken).status = 401 ∧
    authHandler "k" 0 handlerOk reqGarbageToken ≠ authHandler "k" 0 handlerOk reqEmptyToken := by
  refine ⟨by decide, by decide, rfl, rfl, ?_⟩
  intro h
  have ha : authHandler "k" 0 handlerOk reqGarbageToken =
      writeErrorResponse "Invalid token" 401 := rfl
  have hb : authHandler "k" 0 handlerOk reqEmptyToken =
      writeErrorResponse "Token required" 401 := rfl
  rw [ha, hb] at h
  have hbody := congrArg Response.body h
  simp [writeErrorResponse] at hbody

/-- C5 amended: for any two requests whose extracted tokens are
non-empty and fail `ValidateJWT` — whether expired, signed under a
different secret, or structurally malformed — the gate produces the
identical response `401` with body `\x7b"error": "Invalid token"\x7d`,
regardless of which validation failure occurred and of the downstream
handler. -/
theorem C5_amended_uniform_validation_failure (jwtSecret : String) (now : Int)
    (r1 r2 : Request) (t1 t2 : String) (e1 e2 : JWTError)
    (hh1 : headerGet r1.headers "Authorization" = "Bearer " ++ t1)
    (hh2 : headerGet r2.headers "Authorization" = "Bearer " ++ t2)
    (ht1 : t1 ≠ "") (ht2 : t2 ≠ "")
    (hv1 : ValidateJWT t1 jwtSecret now = .error e1)
    (hv2 : ValidateJWT t2 jwtSecret now = .error e2) :
    (∀ next, authHandler jwtSecret now next r1 = writeErrorResponse "Invalid token" 401) ∧
    (∀ next, authHandler jwtSecret now next r2 = writeErrorResponse "Invalid token" 401) ∧
    ∀ n1 n2, authHandler jwtSecret now n1 r1 = authHandler jwtSecret now n2 r2 := by
  have hm1 := authMiddleware_bearer jwtSecret now r1 t1 hh1 ht1
  have hm2 := authMiddleware_bearer jwtSecret now r2 t2 hh2 ht2
  rw [hv1] at hm1
  rw [hv2] at hm2
  refine ⟨fun next => ?_, fun next => ?_, fun n1 n2 => ?_⟩
  · unfold authHandler
    rw [hm1]
  · unfold authHandler
    rw [hm2]
  · unfold authHandler
    rw [hm1, hm2]

/-- Witness for the amended C5: a malformed-token request and a
wrong-secret request receive the same `Invalid token` response. -/
theorem C5_amended_witness :
    (∀ next, authHandler "k" 0 next reqGarbageToken = writeErrorResponse "Invalid token" 401) ∧
    (∀ next, authHandler "k" 0 next reqWrongSecret = writeErrorResponse "Invalid token" 401) ∧
    ∀ n1 n2, authHandler "k" 0 n1 reqGarbageToken = authHandler "k" 0 n2 reqWrongSecret :=
  C5_amended_uniform_validation_failure "k" 0 reqGarbageToken reqWrongSecret
    "garbage" (generateJWTString 1 "a" "s1" 0) .malformedToken .signatureInvalid
    rfl rfl (by decide) (by decide) (by decide) (by decide)

/-- C6: when the bearer token validates under the configured secret, the
gate proceeds to the downstream handler with a request context mapping
`"user_id"` to the validated claims' `UserID` and `"user_email"` to the
claims' `Email`, and the response is entirely the downstream handler's. -/
theorem C6_success_attaches_identity (jwtSecret : String) (now : Int)
    (r : Request) (ts : String) (claims : JWTClaims)
    (hh : headerGet r.headers "Authorization" = "Bearer " ++ ts)
    (hv : ValidateJWT ts jwtSecret now = .ok claims) :
    AuthMiddleware jwtSecret now r = .proceed (withAuthContext r claims) ∧
    ctxValue (withAuthContext r claims).ctx "user_id" = some (.natV claims.userID) ∧
    ctxValue (withAuthContext r claims).ctx "user_email" = some (.strV claims.email) ∧
    ∀ next, authHandler jwtSecret now next r = next (withAuthContext r claims) := by
  have hts : ts ≠ "" := by
    intro h0
    rw [h0, validateJWT_empty] at hv
    exact absurd hv (by simp)
  have hm := authMiddleware_bearer jwtSecret now r ts hh hts
  rw [hv] at hm
  refine ⟨hm, ?_, ?_, fun next => ?_⟩
  · simp [withAuthContext, ctxValue, List.find?]
  · simp [withAuthContext, ctxValue, List.find?]
  · unfold authHandler
    rw [hm]

/-- A request carrying a token issued by `GenerateJWT(7, "a", "k")` at
instant 100. -/
def reqValidToken : Request :=
  { method := "GET", url := "/api/profile",
    headers := [("Authorization", "Bearer " ++ generateJWTString 7 "a" "k" 100)],
    body := "", ctx := [] }

/-- The claims inside `reqValidToken`'s token. -/
def claimsValid : JWTClaims :=
  { userID := 7, email := "a", expiresAt := some 86500, issuedAt := some 100,
    notBefore := some 100 }

/-- Witness for C6 on `reqValidToken`, validated within its window. -/
theorem C6_witness :
    AuthMiddleware "k" 100 reqValidToken = .proceed (withAuthContext reqValidToken claimsValid) ∧
    ctxValue (withAuthContext reqValidToken claimsValid).ctx "user_id" =
      some (.natV claimsValid.userID) ∧
    ctxValue (withAuthContext reqValidToken claimsValid).ctx "user_email" =
      some (.strV claimsValid.email) ∧
    ∀ next, authHandler "k" 100 next reqValidToken = next (withAuthContext reqValidToken claimsValid) :=
  C6_success_attaches_identity "k" 100 reqValidToken
    (generateJWTString 7 "a" "k" 100) claimsValid rfl (by decide)

/-- C10: on successful validation the gate calls the downstream handler
exactly once, with a request identical to the incoming one in method,
URL, headers and body; only the context gains the two identity keys (the
new pairs are prepended, shadowing nothing the handler would not
otherwise see), and the gate writes nothing itself on the success path —
the response is exactly the downstream handler's. -/
theorem C10_success_frame (jwtSecret : String) (now : Int) (r : Request)
    (ts : String) (claims : JWTClaims)
    (hh : headerGet r.headers "Authorization" = "Bearer " ++ ts)
    (hv : ValidateJWT ts jwtSecret now = .ok claims) :
    ∃ r2, AuthMiddleware jwtSecret now r = .proceed r2 ∧
      authHandlerCalls jwtSecret now r = [r2] ∧
      r2.method = r.method ∧ r2.url = r.url ∧ r2.headers = r.headers ∧
      r2.body = r.body ∧
      r2.ctx = ("user_email", .strV claims.email) :: ("user_id", .natV claims.userID) :: r.ctx ∧
      ∀ next, authHandler jwtSecret now next r = next r2 := by
  have hts : ts ≠ "" := by
    intro h0
    rw [h0, validateJWT_empty] at hv
    exact absurd hv (by simp)
  have hm := authMiddleware_bearer jwtSecret now r ts hh hts
  rw [hv] at hm
  refine ⟨withAuthContext r claims, hm, ?_, rfl, rfl, rfl, rfl, rfl, fun next => ?_⟩
  · unfold authHandlerCalls
    rw [hm]
  · unfold authHandler
    rw [hm]

/-- Witness for C10 on `reqValidToken`. -/
theorem C10_witness :
    ∃ r2, AuthMiddleware "k" 100 reqValidToken = .proceed r2 ∧
      authHandlerCalls "k" 100 reqValidToken = [r2] ∧
      r2.method = reqValidToken.method ∧ r2.url = reqValidToken.url ∧
      r2.headers = reqValidToken.headers ∧ r2.body = reqValidToken.body ∧
      r2.ctx = ("user_email", .strV claimsValid.email) ::
        ("user_id", .natV claimsValid.userID) :: reqValidToken.ctx ∧
      ∀ next, authHandler "k" 100 next reqValidToken = next r2 :=
  C10_success_frame "k" 100 reqValidToken (generateJWTString 7 "a" "k" 100)
    claimsValid rfl (by decide)

/-! ## Theorems: CORS gate and route pipeline -/

/-- C9: every route group built by `SetupRoutes` is wrapped in
`CORSMiddleware` (applied via `router.Use` before any subrouter
middleware, hence before the Authentication Gate); every response carries
the three `Access-Control-*` headers, and an `OPTIONS` request is
answered `200` with no body by the CORS gate alone — the result does not
depend on the route's handler or on the authentication secret, so no
later stage runs. -/
theorem C9_cors_always_first (jwtSecret : String) (now : Int) (k : RouteKind)
    (base : Request → Response) (r : Request) :
    (r.method = "OPTIONS" →
      SetupRoutes jwtSecret now k base r =
        { status := 200, headers := corsHeaders, body := none }) ∧
    headerGet (SetupRoutes jwtSecret now k base r).headers
      "Access-Control-Allow-Origin" = "*" ∧
    headerGet (SetupRoutes jwtSecret now k base r).headers
      "Access-Control-Allow-Methods" = "GET, POST, PUT, DELETE, OPTIONS" ∧
    headerGet (SetupRoutes jwtSecret now k base r).headers
      "Access-Control-Allow-Headers" = "Content-Type, Authorization" := by
  cases k <;> by_cases hm : r.method = "OPTIONS" <;>
    simp [SetupRoutes, CORSMiddleware, hm, corsHeaders, headerGet, List.find?]

/-- An `OPTIONS` preflight request aimed at a protected route. -/
def reqPreflight : Request :=
  { method := "OPTIONS", url := "/api/users", headers := [], body := "", ctx := [] }

/-- Witness for C9: a preflight `OPTIONS` request on the protected group
is answered by the CORS gate alone, with the three headers set. -/
theorem C9_witness :
    SetupRoutes "k" 0 .protectedR handlerOk reqPreflight =
      { status := 200, headers := corsHeaders, body := none } ∧
    headerGet (SetupRoutes "k" 0 .protectedR handlerOk reqPreflight).headers
      "Access-Control-Allow-Origin" = "*" ∧
    headerGet (SetupRoutes "k" 0 .protectedR handlerOk reqPreflight).headers
      "Access-Control-Allow-Methods" = "GET, POST, PUT, DELETE, OPTIONS" ∧
    headerGet (SetupRoutes "k" 0 .protectedR handlerOk reqPreflight).headers
      "Access-Control-Allow-Headers" = "Content-Type, Authorization" :=
  ⟨(C9_cors_always_first "k" 0 .protectedR handlerOk reqPreflight).1 rfl,
   (C9_cors_always_first "k" 0 .protectedR handlerOk reqPreflight).2.1,
   (C9_cors_always_first "k" 0 .protectedR handlerOk reqPreflight).2.2.1,
   (C9_cors_always_first "k" 0 .protectedR handlerOk reqPreflight).2.2.2⟩

end GoApi
